import Mathlib

/-!
Verification of the registration/teardown lifecycle of the rdma-driver-rs
repository (`src/rust/kernel/mlx4.rs` and `src/rust/kernel/rxe.rs`).

The two framework instances (mlx4 work-queue variant, rxe socket variant)
are shallowly embedded: every operation is a pure function from an explicit
environment (the outcomes the kernel primitives would return) and the
current state to a result, a successor state, and a trace of the external
calls made, in order.  Queue/socket handles are modelled as `Nat`; kernel
status codes (`c_int`) are modelled as `Int`, errors being negative errno
values exactly as produced by `Error::from_kernel_errno`.
-/

deriving instance DecidableEq for Except

/-- Kernel status code (`c_int`); errors carry the negative errno value. -/
abbrev Errno := Int

/-- `kernel::error::code::EINVAL`, i.e. `Error(-22)`. -/
def EINVAL : Errno := -22

/-- `Error::from_kernel_errno(errno)`: wraps the (negative) errno value. -/
def from_kernel_errno (e : Int) : Errno := e

namespace Mlx4

/-- The four work-queue sub-resources of the mlx4 registration, named after
the fields of `Registration<T>` that hold them. -/
inductive QId
  | wq
  | qp
  | cm
  | mcg
deriving DecidableEq, Repr

/-- External calls made by the mlx4 lifecycle code, in program order.
`tryNew q b` is a `Queue::try_new` call for queue `q`, `b` telling whether
the handle was stored (`Ok`); `rel q` is the drop of a stored handle
(workqueue destruction); `publish` is `mlx4_register_interface`.
`unpublish` stands for `mlx4_unregister_interface`: the source contains no
call site for it, the constructor exists so that its absence from every
trace can be stated. -/
inductive Event
  | tryNew (q : QId) (ok : Bool)
  | rel (q : QId)
  | publish
  | unpublish
deriving DecidableEq, Repr

/-- `struct Mlx4WorkQueue { wq: Option<BoxedQueue> }`. -/
structure Mlx4WorkQueue where
  wq : Option Nat
deriving DecidableEq, Repr

/-- `struct CmWorkQueue { cm_wq: Option<BoxedQueue> }`. -/
structure CmWorkQueue where
  cm_wq : Option Nat
deriving DecidableEq, Repr

/-- `struct McgWorkQueue { clean_wq: Option<BoxedQueue> }`. -/
structure McgWorkQueue where
  clean_wq : Option Nat
deriving DecidableEq, Repr

/-- `struct QpWorkQueue { mlx4_ib_qp_event_wq: Option<BoxedQueue> }`. -/
structure QpWorkQueue where
  mlx4_ib_qp_event_wq : Option Nat
deriving DecidableEq, Repr

/-- Outcomes of the four `Queue::try_new` calls a single `register()` run
may perform, one per work queue (the environment of the run). -/
structure Env where
  wqNew : Except Errno Nat
  qpNew : Except Errno Nat
  cmNew : Except Errno Nat
  mcgNew : Except Errno Nat
deriving DecidableEq, Repr

/-- `Mlx4WorkQueue::new()`. -/
def Mlx4WorkQueue.new : Mlx4WorkQueue := ⟨none⟩

/-- `Mlx4WorkQueue::init`: calls `Queue::try_new("mlx4_ib", ...)`; on `Ok`
stores the handle, on `Err(e)` returns `e` leaving the field unchanged. -/
def Mlx4WorkQueue.init (s : Mlx4WorkQueue) (outcome : Except Errno Nat) :
    Except Errno Unit × Mlx4WorkQueue × List Event :=
  match outcome with
  | .ok q => (.ok (), ⟨some q⟩, [.tryNew .wq true])
  | .error e => (.error e, s, [.tryNew .wq false])

/-- `Mlx4WorkQueue::clean`: `if self.wq.is_some() { drop(self.wq.take().unwrap()) }`. -/
def Mlx4WorkQueue.clean (s : Mlx4WorkQueue) : Mlx4WorkQueue × List Event :=
  if s.wq.isSome then (⟨none⟩, [.rel .wq]) else (s, [])

/-- `CmWorkQueue::new()`. -/
def CmWorkQueue.new : CmWorkQueue := ⟨none⟩

/-- `CmWorkQueue::init`: calls `Queue::try_new("mlx4_ib_cm", 0, 0)`. -/
def CmWorkQueue.init (s : CmWorkQueue) (outcome : Except Errno Nat) :
    Except Errno Unit × CmWorkQueue × List Event :=
  match outcome with
  | .ok q => (.ok (), ⟨some q⟩, [.tryNew .cm true])
  | .error e => (.error e, s, [.tryNew .cm false])

/-- `CmWorkQueue::clean`. -/
def CmWorkQueue.clean (s : CmWorkQueue) : CmWorkQueue × List Event :=
  if s.cm_wq.isSome then (⟨none⟩, [.rel .cm]) else (s, [])

/-- `McgWorkQueue::new()`. -/
def McgWorkQueue.new : McgWorkQueue := ⟨none⟩

/-- `McgWorkQueue::init`: calls `Queue::try_new("mlx4_ib_mcg", ...)`. -/
def McgWorkQueue.init (s : McgWorkQueue) (outcome : Except Errno Nat) :
    Except Errno Unit × McgWorkQueue × List Event :=
  match outcome with
  | .ok q => (.ok (), ⟨some q⟩, [.tryNew .mcg true])
  | .error e => (.error e, s, [.tryNew .mcg false])

/-- `McgWorkQueue::clean`. -/
def McgWorkQueue.clean (s : McgWorkQueue) : McgWorkQueue × List Event :=
  if s.clean_wq.isSome then (⟨none⟩, [.rel .mcg]) else (s, [])

/-- `QpWorkQueue::new()`. -/
def QpWorkQueue.new : QpWorkQueue := ⟨none⟩

/-- `QpWorkQueue::init`: calls `Queue::try_new("mlx4_ib_qp_event_wq", ...)`. -/
def QpWorkQueue.init (s : QpWorkQueue) (outcome : Except Errno Nat) :
    Except Errno Unit × QpWorkQueue × List Event :=
  match outcome with
  | .ok q => (.ok (), ⟨some q⟩, [.tryNew .qp true])
  | .error e => (.error e, s, [.tryNew .qp false])

/-- `QpWorkQueue::clean`. -/
def QpWorkQueue.clean (s : QpWorkQueue) : QpWorkQueue × List Event :=
  if s.mlx4_ib_qp_event_wq.isSome then (⟨none⟩, [.rel .qp]) else (s, [])

/-- `struct Registration<T>` of `mlx4.rs` (the `PhantomData` is dropped;
the `name` field is dead code in the source and carried verbatim). -/
structure Registration where
  registered : Bool
  name : String
  wq : Mlx4WorkQueue
  cm_wq : CmWorkQueue
  qp_wq : QpWorkQueue
  mcg_wq : McgWorkQueue
deriving DecidableEq, Repr

/-- `Registration::new`: everything absent, `registered = false`. -/
def Registration.new (name : String) : Registration :=
  { registered := false
    name := name
    wq := Mlx4WorkQueue.new
    cm_wq := CmWorkQueue.new
    qp_wq := QpWorkQueue.new
    mcg_wq := McgWorkQueue.new }

/-- `Registration::register`: guard on `registered`, then `wq.init`,
`qp_wq.init`, `cm_wq.init`, `mcg_wq.init` in that order, with the source's
per-step failure handlers, then `mlx4_register_interface` and
`registered = true`. -/
def Registration.register (env : Env) (r : Registration) :
    Except Errno Unit × Registration × List Event :=
  if r.registered then
    (.error EINVAL, r, [])
  else
    match r.wq.init env.wqNew with
    | (.error e, wq1, t1) => (.error e, { r with wq := wq1 }, t1)
    | (.ok _, wq1, t1) =>
      match r.qp_wq.init env.qpNew with
      | (.error e, qp1, t2) =>
          let (wq2, c1) := wq1.clean
          (.error e, { r with wq := wq2, qp_wq := qp1 }, t1 ++ t2 ++ c1)
      | (.ok _, qp1, t2) =>
        match r.cm_wq.init env.cmNew with
        | (.error e, cm1, t3) =>
            let (wq2, c1) := wq1.clean
            let (qp2, c2) := qp1.clean
            (.error e, { r with wq := wq2, qp_wq := qp2, cm_wq := cm1 },
              t1 ++ t2 ++ t3 ++ c1 ++ c2)
        | (.ok _, cm1, t3) =>
          match r.mcg_wq.init env.mcgNew with
          | (.error e, mcg1, t4) =>
              let (wq2, c1) := wq1.clean
              let (cm2, c2) := cm1.clean
              let (qp2, c3) := qp1.clean
              (.error e,
                { r with wq := wq2, cm_wq := cm2, qp_wq := qp2, mcg_wq := mcg1 },
                t1 ++ t2 ++ t3 ++ t4 ++ c1 ++ c2 ++ c3)
          | (.ok _, mcg1, t4) =>
              (.ok (),
                { r with registered := true, wq := wq1, qp_wq := qp1,
                         cm_wq := cm1, mcg_wq := mcg1 },
                t1 ++ t2 ++ t3 ++ t4 ++ [.publish])

/-- `impl Drop for Registration`: if `registered`, clean `mcg_wq`, `cm_wq`,
`qp_wq`, `wq` in that order; no `mlx4_unregister_interface` call occurs in
the source.  Afterwards the compiler-generated drop glue drops the fields
in declaration order (`wq`, `cm_wq`, `qp_wq`, `mcg_wq`), destroying any
queue handle still held. -/
def Registration.dropTrace (r : Registration) : List Event :=
  let (r2, tbody) :=
    if r.registered then
      let (mcg2, u1) := r.mcg_wq.clean
      let (cm2, u2) := r.cm_wq.clean
      let (qp2, u3) := r.qp_wq.clean
      let (wq2, u4) := r.wq.clean
      ({ r with mcg_wq := mcg2, cm_wq := cm2, qp_wq := qp2, wq := wq2 },
        u1 ++ u2 ++ u3 ++ u4)
    else (r, [])
  let g1 := if r2.wq.wq.isSome then [Event.rel .wq] else []
  let g2 := if r2.cm_wq.cm_wq.isSome then [Event.rel .cm] else []
  let g3 := if r2.qp_wq.mlx4_ib_qp_event_wq.isSome then [Event.rel .qp] else []
  let g4 := if r2.mcg_wq.clean_wq.isSome then [Event.rel .mcg] else []
  tbody ++ g1 ++ g2 ++ g3 ++ g4

/-- The release calls of a trace, in order. -/
def relList : List Event → List QId
  | [] => []
  | .rel q :: tl => q :: relList tl
  | _ :: tl => relList tl

/-- The acquisition calls (attempted steps) of a trace, in order. -/
def attemptList : List Event → List QId
  | [] => []
  | .tryNew q _ :: tl => q :: attemptList tl
  | _ :: tl => attemptList tl

/-- Which of the four work queues are present (`Option::is_some`). -/
structure Pres where
  wq : Bool
  qp : Bool
  cm : Bool
  mcg : Bool
deriving DecidableEq, Repr

/-- Presence of one queue. -/
def Pres.get (m : Pres) : QId → Bool
  | .wq => m.wq
  | .qp => m.qp
  | .cm => m.cm
  | .mcg => m.mcg

/-- Update the presence of one queue. -/
def Pres.set (m : Pres) : QId → Bool → Pres
  | .wq, b => { m with wq := b }
  | .qp, b => { m with qp := b }
  | .cm, b => { m with cm := b }
  | .mcg, b => { m with mcg := b }

/-- No queue present. -/
def Pres.allAbsent : Pres := ⟨false, false, false, false⟩

/-- Every queue present. -/
def Pres.allPresent : Pres := ⟨true, true, true, true⟩

/-- The presence map of a registration state. -/
def presOf (r : Registration) : Pres :=
  ⟨r.wq.wq.isSome, r.qp_wq.mlx4_ib_qp_event_wq.isSome,
    r.cm_wq.cm_wq.isSome, r.mcg_wq.clean_wq.isSome⟩

/-- Ledger check of a trace against a starting presence map: an
acquisition call for `q` is made only while `q` is absent, and a release
call for `q` only while `q` is present (hence never twice without a
re-acquisition in between). -/
def check : Pres → List Event → Bool
  | _, [] => true
  | m, .tryNew q b :: tl => !m.get q && check (m.set q b) tl
  | m, .rel q :: tl => m.get q && check (m.set q false) tl
  | m, .publish :: tl => check m tl
  | m, .unpublish :: tl => check m tl

/-- The presence map a trace leads to: present exactly after a successful
acquisition that no release has followed. -/
def run : Pres → List Event → Pres
  | m, [] => m
  | m, .tryNew q b :: tl => run (m.set q b) tl
  | m, .rel q :: tl => run (m.set q false) tl
  | m, .publish :: tl => run m tl
  | m, .unpublish :: tl => run m tl

/-- State invariant of the mlx4 registration: unregistered states hold no
queue, registered states hold all four. -/
def Inv (r : Registration) : Prop :=
  presOf r = if r.registered then Pres.allPresent else Pres.allAbsent

/-- The registration states the program can actually produce: a freshly
constructed object followed by any number of `register()` calls (drop
consumes the object and is terminal). -/
inductive Reachable : Registration → Prop
  | new (name : String) : Reachable (Registration.new name)
  | step (env : Env) {r : Registration} :
      Reachable r → Reachable (Registration.register env r).2.1

/-- A raw `*mut core::ffi::c_void` value. -/
inductive RawPtr
  | null
  | addr (a : Nat)
deriving DecidableEq, Repr

/-- An implementation of `trait Mlx4Operation` over a driver-state type
`σ`: each method may change the driver state and returns a `Result`. -/
structure Mlx4Operation (σ : Type) where
  add : σ → σ × Except Errno Unit
  remove : σ → σ × Except Errno Unit
  event : σ → σ × Except Errno Unit

/-- `Mlx4OperationTable::<T>::add_callback`: `let _ = T::add(); return
ptr::null_mut();`. -/
def add_callback {σ : Type} (T : Mlx4Operation σ) (s : σ) : σ × RawPtr :=
  let r := T.add s
  (r.1, RawPtr.null)

/-- `Mlx4OperationTable::<T>::remove_callback`: `let _ = T::remove();`
(the raw slot returns `()`). -/
def remove_callback {σ : Type} (T : Mlx4Operation σ) (s : σ) : σ :=
  (T.remove s).1

/-- `Mlx4OperationTable::<T>::event_callback`: `let _ = T::event();`. -/
def event_callback {σ : Type} (T : Mlx4Operation σ) (s : σ) : σ :=
  (T.event s).1

/-- Modelled on the amended claim for the mlx4 variant: given the
environment, the step whose `Queue::try_new` fails first determines the
returned error (the step's own error, unchanged), the queues released
during rollback in the order the source's handlers run them (`wq` first,
not reverse), and the steps attempted (`1..k`). `none` when no step
fails. -/
def failSpec (env : Env) : Option (Errno × List QId × List QId) :=
  match env.wqNew with
  | .error e => some (e, [], [.wq])
  | .ok _ =>
    match env.qpNew with
    | .error e => some (e, [.wq], [.wq, .qp])
    | .ok _ =>
      match env.cmNew with
      | .error e => some (e, [.wq, .qp], [.wq, .qp, .cm])
      | .ok _ =>
        match env.mcgNew with
        | .error e => some (e, [.wq, .cm, .qp], [.wq, .qp, .cm, .mcg])
        | .ok _ => none

end Mlx4

namespace Rxe

/-- The three sub-resources of `RxeRecvSockets<T>`: the IPv4 UDP tunnel
socket, the IPv6 UDP tunnel socket, and the netdevice notifier block. -/
inductive RId
  | sk4
  | sk6
  | notif
deriving DecidableEq, Repr

/-- External calls made by the rxe lifecycle code, in program order.
`tryAcq r b` is an acquisition call for sub-resource `r`
(`udp_sock_create4/6`, or building and registering the notifier block),
`b` telling whether the sub-resource was marked present afterwards;
`rel r` is the matching release call (`udp_tunnel_sock_release`,
`unregister_netdevice_notifier`).  `linkRegister` is `rdma_link_register`,
`linkUnregister` is `rdma_link_unregister`, `ibUnregisterDriver` is
`ib_unregister_driver(RDMA_DRIVER_RXE)`. -/
inductive Event
  | tryAcq (r : RId) (ok : Bool)
  | rel (r : RId)
  | linkRegister
  | linkUnregister
  | ibUnregisterDriver
deriving DecidableEq, Repr

/-- Outcomes the kernel primitives would return during one `alloc()` run:
the `c_int` results of `udp_sock_create4`, `udp_sock_create6` and
`register_netdevice_notifier`, plus the socket handles the create calls
would write through their out-parameter on success. -/
structure Env where
  create4Err : Int
  create4Sock : Nat
  create6Err : Int
  create6Sock : Nat
  notifErr : Int
deriving DecidableEq, Repr

/-- `struct RxeRecvSockets<T>` (the `PhantomData` is dropped; socket
pointers and the notifier block are opaque handles). -/
structure RxeRecvSockets where
  sk4 : Option Nat
  sk6 : Option Nat
  rxe_net_notifier : Option Nat
deriving DecidableEq, Repr

/-- `RxeRecvSockets::new()`. -/
def RxeRecvSockets.new : RxeRecvSockets :=
  { sk4 := none, sk6 := none, rxe_net_notifier := none }

/-- `RxeRecvSockets::ipv4_init`: `udp_sock_create4`; on `err < 0` returns
`Error::from_kernel_errno(err)`, otherwise configures the tunnel and
stores the socket in `sk4`. -/
def RxeRecvSockets.ipv4_init (s : RxeRecvSockets) (env : Env) :
    Except Errno Unit × RxeRecvSockets × List Event :=
  if env.create4Err < 0 then
    (.error (from_kernel_errno env.create4Err), s, [.tryAcq .sk4 false])
  else
    (.ok (), { s with sk4 := some env.create4Sock }, [.tryAcq .sk4 true])

/-- `RxeRecvSockets::ipv6_init` in a `CONFIG_IPV6=y` build (`config_ipv6 =
true`; with `CONFIG_IPV6` unset the body is empty and the function returns
`Ok(())`): `udp_sock_create6`; `err = -97` (`EAFNOSUPPORT`) returns
`Ok(())` leaving `sk6` absent, any other `err < 0` is a hard failure,
otherwise the socket is stored in `sk6`. -/
def RxeRecvSockets.ipv6_init (s : RxeRecvSockets) (config_ipv6 : Bool) (env : Env) :
    Except Errno Unit × RxeRecvSockets × List Event :=
  if config_ipv6 then
    if env.create6Err < 0 then
      if env.create6Err = -97 then
        (.ok (), s, [.tryAcq .sk6 false])
      else
        (.error (from_kernel_errno env.create6Err), s, [.tryAcq .sk6 false])
    else
      (.ok (), { s with sk6 := some env.create6Sock }, [.tryAcq .sk6 true])
  else
    (.ok (), s, [])

/-- `RxeRecvSockets::net_notifier_register`: stores the freshly built
notifier block in `rxe_net_notifier`, calls
`register_netdevice_notifier`; on `err != 0` it unregisters and takes the
just-stored block back out before propagating the error. -/
def RxeRecvSockets.net_notifier_register (s : RxeRecvSockets) (env : Env) :
    Except Errno Unit × RxeRecvSockets × List Event :=
  let s1 : RxeRecvSockets := { s with rxe_net_notifier := some 0 }
  if env.notifErr ≠ 0 then
    if s1.rxe_net_notifier.isSome then
      (.error (from_kernel_errno env.notifErr),
        { s1 with rxe_net_notifier := none },
        [.tryAcq .notif true, .rel .notif])
    else
      (.error (from_kernel_errno env.notifErr), s1, [.tryAcq .notif true])
  else
    (.ok (), s1, [.tryAcq .notif true])

/-- `RxeRecvSockets::rxe_net_release`: releases `sk4` then `sk6`, each only
if present, taking the handle out. -/
def RxeRecvSockets.rxe_net_release (s : RxeRecvSockets) :
    RxeRecvSockets × List Event :=
  let (s1, u1) :=
    if s.sk4.isSome then ({ s with sk4 := none }, [Event.rel .sk4]) else (s, [])
  let (s2, u2) :=
    if s1.sk6.isSome then ({ s1 with sk6 := none }, [Event.rel .sk6]) else (s1, [])
  (s2, u1 ++ u2)

/-- `RxeRecvSockets::alloc`: `ipv4_init`, `ipv6_init`,
`net_notifier_register` in order; on a failure of either of the last two
steps, `rxe_net_release` runs before the error is returned. -/
def RxeRecvSockets.alloc (s : RxeRecvSockets) (config_ipv6 : Bool) (env : Env) :
    Except Errno Unit × RxeRecvSockets × List Event :=
  match s.ipv4_init env with
  | (.error e, s1, t1) => (.error e, s1, t1)
  | (.ok _, s1, t1) =>
    match s1.ipv6_init config_ipv6 env with
    | (.error e, s2, t2) =>
        let (s3, u) := s2.rxe_net_release
        (.error e, s3, t1 ++ t2 ++ u)
    | (.ok _, s2, t2) =>
      match s2.net_notifier_register env with
      | (.error e, s3, t3) =>
          let (s4, u) := s3.rxe_net_release
          (.error e, s4, t1 ++ t2 ++ t3 ++ u)
      | (.ok _, s3, t3) => (.ok (), s3, t1 ++ t2 ++ t3)

/-- `impl Drop for RxeRecvSockets`: `rxe_net_release`, then unregister the
notifier if present. -/
def RxeRecvSockets.dropTrace (s : RxeRecvSockets) : List Event :=
  let (s1, u1) := s.rxe_net_release
  let u2 := if s1.rxe_net_notifier.isSome then [Event.rel .notif] else []
  u1 ++ u2

/-- `struct Registration<T>` of `rxe.rs` (the `PhantomData` is dropped; the
`rdma_link_ops` table is an opaque value: `0` is
`bindings::rdma_link_ops::default()`, `1` is the table built by
`RxeRdmaLinkTable::<T>::build()`). -/
structure Registration where
  registered : Bool
  name : String
  net_socket : RxeRecvSockets
  rxe_link_ops : Nat
deriving DecidableEq, Repr

/-- `Registration::new`. -/
def Registration.new (name : String) : Registration :=
  { registered := false
    name := name
    net_socket := RxeRecvSockets.new
    rxe_link_ops := 0 }

/-- `Registration::register`: guard on `registered`, then
`net_socket.alloc()`; on success builds the link-ops table, calls
`rdma_link_register` and sets `registered = true`. -/
def Registration.register (r : Registration) (config_ipv6 : Bool) (env : Env) :
    Except Errno Unit × Registration × List Event :=
  if r.registered then
    (.error EINVAL, r, [])
  else
    match r.net_socket.alloc config_ipv6 env with
    | (.error e, ns1, t) => (.error e, { r with net_socket := ns1 }, t)
    | (.ok _, ns1, t) =>
        (.ok (),
          { r with registered := true, net_socket := ns1, rxe_link_ops := 1 },
          t ++ [.linkRegister])

/-- `impl Drop for Registration`: if `registered`, `rdma_link_unregister`
then `ib_unregister_driver(RDMA_DRIVER_RXE)`; afterwards the
compiler-generated drop glue drops the `net_socket` field, running
`RxeRecvSockets`'s own `Drop`. -/
def Registration.dropTrace (r : Registration) : List Event :=
  (if r.registered then [Event.linkUnregister, Event.ibUnregisterDriver] else [])
    ++ r.net_socket.dropTrace

/-- The release calls of a trace, in order. -/
def relList : List Event → List RId
  | [] => []
  | .rel q :: tl => q :: relList tl
  | _ :: tl => relList tl

/-- The acquisition calls (attempted steps) of a trace, in order. -/
def attemptList : List Event → List RId
  | [] => []
  | .tryAcq q _ :: tl => q :: attemptList tl
  | _ :: tl => attemptList tl

/-- Which of the three sub-resources are present (`Option::is_some`). -/
structure Pres where
  sk4 : Bool
  sk6 : Bool
  notif : Bool
deriving DecidableEq, Repr

/-- Presence of one sub-resource. -/
def Pres.get (m : Pres) : RId → Bool
  | .sk4 => m.sk4
  | .sk6 => m.sk6
  | .notif => m.notif

/-- Update the presence of one sub-resource. -/
def Pres.set (m : Pres) : RId → Bool → Pres
  | .sk4, b => { m with sk4 := b }
  | .sk6, b => { m with sk6 := b }
  | .notif, b => { m with notif := b }

/-- No sub-resource present. -/
def Pres.allAbsent : Pres := ⟨false, false, false⟩

/-- The presence map of a socket-set state. -/
def presOf (s : RxeRecvSockets) : Pres :=
  ⟨s.sk4.isSome, s.sk6.isSome, s.rxe_net_notifier.isSome⟩

/-- Ledger check of a trace against a starting presence map: an
acquisition call for `r` is made only while `r` is absent, a release call
for `r` only while `r` is present. -/
def check : Pres → List Event → Bool
  | _, [] => true
  | m, .tryAcq q b :: tl => !m.get q && check (m.set q b) tl
  | m, .rel q :: tl => m.get q && check (m.set q false) tl
  | m, .linkRegister :: tl => check m tl
  | m, .linkUnregister :: tl => check m tl
  | m, .ibUnregisterDriver :: tl => check m tl

/-- The presence map a trace leads to. -/
def run : Pres → List Event → Pres
  | m, [] => m
  | m, .tryAcq q b :: tl => run (m.set q b) tl
  | m, .rel q :: tl => run (m.set q false) tl
  | m, .linkRegister :: tl => run m tl
  | m, .linkUnregister :: tl => run m tl
  | m, .ibUnregisterDriver :: tl => run m tl

/-- State invariant of the rxe registration: unregistered states hold no
sub-resource; registered states hold the IPv4 socket and the notifier
(the IPv6 socket may be absent, best-effort). -/
def Inv (r : Registration) : Prop :=
  if r.registered then
    r.net_socket.sk4.isSome = true ∧ r.net_socket.rxe_net_notifier.isSome = true
  else
    presOf r.net_socket = Pres.allAbsent

/-- The registration states the program can actually produce. -/
inductive Reachable : Registration → Prop
  | new (name : String) : Reachable (Registration.new name)
  | step (config_ipv6 : Bool) (env : Env) {r : Registration} :
      Reachable r → Reachable (Registration.register r config_ipv6 env).2.1

/-- An implementation of `trait RxeOperation` over a driver-state type
`σ`: each method may change the driver state and returns a `Result`. -/
structure RxeOperation (σ : Type) where
  notify : σ → σ × Except Errno Unit
  newlink : σ → σ × Except Errno Unit
  udp_recv : σ → σ × Except Errno Unit

/-- `RxeNotifyFuncTable::<T>::rxe_notify`: `let _ = T::notify(); return 0;`. -/
def rxe_notify {σ : Type} (T : RxeOperation σ) (s : σ) : σ × Int :=
  let r := T.notify s
  (r.1, 0)

/-- `RxeRdmaLinkTable::<T>::rxe_newlink`: `let _ = T::newlink(); return 0;`. -/
def rxe_newlink {σ : Type} (T : RxeOperation σ) (s : σ) : σ × Int :=
  let r := T.newlink s
  (r.1, 0)

/-- `RxeUdpEncapRecvFuncTable::<T>::rxe_udp_encap_recv`: `let _ =
T::udp_recv(); return 0;`. -/
def rxe_udp_encap_recv {σ : Type} (T : RxeOperation σ) (s : σ) : σ × Int :=
  let r := T.udp_recv s
  (r.1, 0)

/-- Modelled on the amended claim for the rxe variant: the first hard
failure among `ipv4_init` (step 1), `ipv6_init` (step 2, only failing hard
in a `CONFIG_IPV6=y` build when the error is not `EAFNOSUPPORT`) and
`net_notifier_register` (step 3) determines the returned error (unchanged),
the releases run before returning (the partially installed notifier first,
then `sk4` before `sk6` — not reverse order), and the steps attempted. -/
def failSpec (config_ipv6 : Bool) (env : Env) : Option (Errno × List RId × List RId) :=
  if env.create4Err < 0 then
    some (env.create4Err, [], [.sk4])
  else if config_ipv6 = true ∧ env.create6Err < 0 ∧ env.create6Err ≠ -97 then
    some (env.create6Err, [.sk4], [.sk4, .sk6])
  else if env.notifErr ≠ 0 then
    some (env.notifErr,
      [.notif, .sk4] ++ (if config_ipv6 = true ∧ ¬env.create6Err < 0 then [.sk6] else []),
      (if config_ipv6 then [.sk4, .sk6, .notif] else [.sk4, .notif]))
  else
    none

end Rxe

/-- Every reachable mlx4 registration state satisfies the presence
invariant: all four queues absent while unregistered, all four present
while registered. -/
theorem mlx4_reachable_inv {r : Mlx4.Registration} (h : Mlx4.Reachable r) :
    Mlx4.Inv r := by
  induction h with
  | new name =>
      simp [Mlx4.Inv, Mlx4.presOf, Mlx4.Registration.new, Mlx4.Mlx4WorkQueue.new,
        Mlx4.CmWorkQueue.new, Mlx4.McgWorkQueue.new, Mlx4.QpWorkQueue.new,
        Mlx4.Pres.allAbsent]
  | step env h ih =>
      rename_i r0
      rcases r0 with ⟨reg, nm, ⟨wqo⟩, ⟨cmo⟩, ⟨qpo⟩, ⟨mcgo⟩⟩
      cases reg with
      | true => simpa [Mlx4.Registration.register] using ih
      | false =>
          simp only [Mlx4.Inv, Mlx4.presOf, Mlx4.Pres.allAbsent, if_neg Bool.false_ne_true,
            Bool.false_eq_true, if_false, Mlx4.Pres.mk.injEq] at ih
          obtain ⟨h1, h2, h3, h4⟩ := ih
          rw [Option.not_isSome, Option.isNone_iff_eq_none] at h1 h2 h3 h4
          subst h1 h2 h3 h4
          rcases env with ⟨w, q, c, m⟩
          cases w <;> cases q <;> cases c <;> cases m <;>
            simp [Mlx4.Registration.register, Mlx4.Mlx4WorkQueue.init,
              Mlx4.QpWorkQueue.init, Mlx4.CmWorkQueue.init, Mlx4.McgWorkQueue.init,
              Mlx4.Mlx4WorkQueue.clean, Mlx4.QpWorkQueue.clean, Mlx4.CmWorkQueue.clean,
              Mlx4.McgWorkQueue.clean, Mlx4.Inv, Mlx4.presOf, Mlx4.Pres.allAbsent,
              Mlx4.Pres.allPresent]

/-- Every reachable rxe registration state satisfies the presence
invariant: all three sub-resources absent while unregistered; the IPv4
socket and the notifier present while registered. -/
theorem rxe_reachable_inv {r : Rxe.Registration} (h : Rxe.Reachable r) :
    Rxe.Inv r := by
  induction h with
  | new name =>
      simp [Rxe.Inv, Rxe.presOf, Rxe.Registration.new, Rxe.RxeRecvSockets.new,
        Rxe.Pres.allAbsent]
  | step cfg env h ih =>
      rename_i r0
      rcases r0 with ⟨reg, nm, ⟨s4, s6, nt⟩, lops⟩
      cases reg with
      | true => simpa [Rxe.Registration.register] using ih
      | false =>
          simp only [Rxe.Inv, Rxe.presOf, Rxe.Pres.allAbsent, Bool.false_eq_true,
            if_false, Rxe.Pres.mk.injEq] at ih
          obtain ⟨h1, h2, h3⟩ := ih
          rw [Option.not_isSome, Option.isNone_iff_eq_none] at h1 h2 h3
          subst h1 h2 h3
          cases cfg <;>
            by_cases h4 : env.create4Err < 0 <;>
            by_cases h6 : env.create6Err < 0 <;>
            by_cases haf : env.create6Err = -97 <;>
            by_cases hn : env.notifErr = 0 <;>
            simp [Rxe.Registration.register, Rxe.RxeRecvSockets.alloc,
              Rxe.RxeRecvSockets.ipv4_init, Rxe.RxeRecvSockets.ipv6_init,
              Rxe.RxeRecvSockets.net_notifier_register, Rxe.RxeRecvSockets.rxe_net_release,
              Rxe.Inv, Rxe.presOf, Rxe.Pres.allAbsent, h4, h6, haf, hn]

/-- C1: the claim as stated is false: when the fourth mlx4 acquisition
step (`mcg_wq`) fails with `-EBUSY`, the three previously acquired queues
are released in the order `wq, cm_wq, qp_wq`, which is not the strict
reverse `cm_wq, qp_wq, wq` of the acquisition order `wq, qp_wq, cm_wq`;
the error itself is propagated unchanged. -/
theorem C1_rollback_reverse_counterexample :
    (Mlx4.Registration.register ⟨.ok 1, .ok 2, .ok 3, .error (-16)⟩
        (Mlx4.Registration.new "drv0")).1 = .error (-16) ∧
    Mlx4.relList
      (Mlx4.Registration.register ⟨.ok 1, .ok 2, .ok 3, .error (-16)⟩
        (Mlx4.Registration.new "drv0")).2.2 = [.wq, .cm, .qp] ∧
    Mlx4.relList
      (Mlx4.Registration.register ⟨.ok 1, .ok 2, .ok 3, .error (-16)⟩
        (Mlx4.Registration.new "drv0")).2.2
      ≠ List.reverse [Mlx4.QId.wq, Mlx4.QId.qp, Mlx4.QId.cm] := by
  decide

/-- C1 (amended): if the k-th acquisition step of `register()` fails,
exactly the sub-resources acquired at steps `1..k-1` are released (each
once), steps `k+1..N` are never attempted, and the failing step's error is
returned unchanged; the release order, however, is the fixed order of the
source's failure handlers (mlx4: `wq` first, e.g. `wq, cm_wq, qp_wq` when
`mcg_wq` fails; rxe: the partially installed notifier first, then `sk4`
before `sk6`), not the strict reverse of the acquisition order. -/
theorem C1_rollback_amended :
    (∀ (env : Mlx4.Env) (name : String),
      match Mlx4.failSpec env with
      | some (e, rels, atts) =>
          (Mlx4.Registration.register env (Mlx4.Registration.new name)).1 = .error e ∧
          Mlx4.relList
            (Mlx4.Registration.register env (Mlx4.Registration.new name)).2.2 = rels ∧
          Mlx4.attemptList
            (Mlx4.Registration.register env (Mlx4.Registration.new name)).2.2 = atts
      | none =>
          (Mlx4.Registration.register env (Mlx4.Registration.new name)).1 = .ok ()) ∧
    (∀ (cfg : Bool) (env : Rxe.Env) (name : String),
      match Rxe.failSpec cfg env with
      | some (e, rels, atts) =>
          (Rxe.Registration.register (Rxe.Registration.new name) cfg env).1 = .error e ∧
          Rxe.relList
            (Rxe.Registration.register (Rxe.Registration.new name) cfg env).2.2 = rels ∧
          Rxe.attemptList
            (Rxe.Registration.register (Rxe.Registration.new name) cfg env).2.2 = atts
      | none =>
          (Rxe.Registration.register (Rxe.Registration.new name) cfg env).1 = .ok ()) := by
  constructor
  · intro env name
    rcases env with ⟨w, q, c, m⟩
    cases w <;> cases q <;> cases c <;> cases m <;>
      simp [Mlx4.failSpec, Mlx4.Registration.register, Mlx4.Registration.new,
        Mlx4.Mlx4WorkQueue.new, Mlx4.CmWorkQueue.new, Mlx4.McgWorkQueue.new,
        Mlx4.QpWorkQueue.new, Mlx4.Mlx4WorkQueue.init, Mlx4.QpWorkQueue.init,
        Mlx4.CmWorkQueue.init, Mlx4.McgWorkQueue.init, Mlx4.Mlx4WorkQueue.clean,
        Mlx4.QpWorkQueue.clean, Mlx4.CmWorkQueue.clean, Mlx4.McgWorkQueue.clean,
        Mlx4.relList, Mlx4.attemptList]
  · intro cfg env name
    cases cfg <;>
      by_cases h4 : env.create4Err < 0 <;>
      by_cases h6 : env.create6Err < 0 <;>
      by_cases haf : env.create6Err = -97 <;>
      by_cases hn : env.notifErr = 0 <;>
      simp [Rxe.failSpec, Rxe.Registration.register, Rxe.Registration.new,
        Rxe.RxeRecvSockets.new, Rxe.RxeRecvSockets.alloc, Rxe.RxeRecvSockets.ipv4_init,
        Rxe.RxeRecvSockets.ipv6_init, Rxe.RxeRecvSockets.net_notifier_register,
        Rxe.RxeRecvSockets.rxe_net_release, Rxe.relList, Rxe.attemptList,
        from_kernel_errno, h4, h6, haf, hn]

/-- C2: destroying a mlx4 registration in the `Registered` state (here:
the state produced by a successful `register()` from fresh) releases the
four work queues but performs no host-facing unpublish at all —
`mlx4_unregister_interface` is never called, although the `Drop` doc
comment says the registration is removed from the kernel and the spec
requires unpublish exactly once before any release. -/
theorem C2_mlx4_drop_omits_unpublish :
    (Mlx4.Registration.register ⟨.ok 1, .ok 2, .ok 3, .ok 4⟩
        (Mlx4.Registration.new "drv0")).2.1.registered = true ∧
    Mlx4.Registration.dropTrace
      (Mlx4.Registration.register ⟨.ok 1, .ok 2, .ok 3, .ok 4⟩
        (Mlx4.Registration.new "drv0")).2.1
      = [.rel .mcg, .rel .cm, .rel .qp, .rel .wq] ∧
    Mlx4.Event.unpublish ∉
      Mlx4.Registration.dropTrace
        (Mlx4.Registration.register ⟨.ok 1, .ok 2, .ok 3, .ok 4⟩
          (Mlx4.Registration.new "drv0")).2.1 := by
  decide

/-- C3: calling `register()` on an instance that is already `Registered`
returns `EINVAL`, leaves the state untouched (so it stays `Registered`)
and makes no external call at all — no acquisition is attempted and no
publish occurs; since the state is unchanged, the same holds for every
repeated call. -/
theorem C3_already_registered_guard :
    (∀ (env : Mlx4.Env) (r : Mlx4.Registration), r.registered = true →
      Mlx4.Registration.register env r = (.error EINVAL, r, [])) ∧
    (∀ (cfg : Bool) (env : Rxe.Env) (r : Rxe.Registration), r.registered = true →
      Rxe.Registration.register r cfg env = (.error EINVAL, r, [])) := by
  refine ⟨fun env r h => ?_, fun cfg env r h => ?_⟩
  · simp [Mlx4.Registration.register, h]
  · simp [Rxe.Registration.register, h]

/-- Witness for C3 at a concrete registered state of each variant. -/
theorem C3_already_registered_guard_witness :
    Mlx4.Registration.register ⟨.ok 5, .ok 6, .ok 7, .ok 8⟩
        (Mlx4.Registration.register ⟨.ok 1, .ok 2, .ok 3, .ok 4⟩
          (Mlx4.Registration.new "drv0")).2.1
      = (.error EINVAL,
          (Mlx4.Registration.register ⟨.ok 1, .ok 2, .ok 3, .ok 4⟩
            (Mlx4.Registration.new "drv0")).2.1, []) ∧
    Rxe.Registration.register
        (Rxe.Registration.register (Rxe.Registration.new "rxe") true ⟨0, 11, 0, 12, 0⟩).2.1
        true ⟨0, 13, 0, 14, 0⟩
      = (.error EINVAL,
          (Rxe.Registration.register (Rxe.Registration.new "rxe") true ⟨0, 11, 0, 12, 0⟩).2.1,
          []) :=
  ⟨C3_already_registered_guard.1 ⟨.ok 5, .ok 6, .ok 7, .ok 8⟩ _ (by decide),
   C3_already_registered_guard.2 true ⟨0, 13, 0, 14, 0⟩ _ (by decide)⟩

/-- C4: `registered` is `false` from construction; a `register()` run from
an unregistered (invariant-satisfying) state ends with `registered = true`
exactly when it returns success, in which case the trace shows every
acquisition step succeeding and then the publish call (the flag is set
only after all of them); on any failure the state (including the flag) is
restored to exactly the initial one, so the object is reusable, and a
`register()` call on any unregistered object is never guard-rejected (the
guard's signature is an empty trace: an unregistered object always gets an
acquisition attempt). -/
theorem C4_registered_flag_lifecycle :
    (∀ name : String, (Mlx4.Registration.new name).registered = false) ∧
    (∀ name : String, (Rxe.Registration.new name).registered = false) ∧
    (∀ (env : Mlx4.Env) (r : Mlx4.Registration), Mlx4.Inv r → r.registered = false →
      ((Mlx4.Registration.register env r).1 = .ok () ↔
        (Mlx4.Registration.register env r).2.1.registered = true) ∧
      ((Mlx4.Registration.register env r).1 = .ok () →
        (Mlx4.Registration.register env r).2.2
          = [.tryNew .wq true, .tryNew .qp true, .tryNew .cm true, .tryNew .mcg true,
             .publish]) ∧
      (∀ e : Errno, (Mlx4.Registration.register env r).1 = .error e →
        (Mlx4.Registration.register env r).2.1 = r)) ∧
    (∀ (cfg : Bool) (env : Rxe.Env) (r : Rxe.Registration), Rxe.Inv r → r.registered = false →
      ((Rxe.Registration.register r cfg env).1 = .ok () ↔
        (Rxe.Registration.register r cfg env).2.1.registered = true) ∧
      ((Rxe.Registration.register r cfg env).1 = .ok () →
        (Rxe.Registration.register r cfg env).2.2.getLast? = some .linkRegister) ∧
      (∀ e : Errno, (Rxe.Registration.register r cfg env).1 = .error e →
        (Rxe.Registration.register r cfg env).2.1 = r)) ∧
    (∀ (env : Mlx4.Env) (r : Mlx4.Registration), r.registered = false →
      (Mlx4.Registration.register env r).2.2 ≠ []) ∧
    (∀ (cfg : Bool) (env : Rxe.Env) (r : Rxe.Registration), r.registered = false →
      (Rxe.Registration.register r cfg env).2.2 ≠ []) := by
  refine ⟨fun _ => rfl, fun _ => rfl, ?_, ?_, ?_, ?_⟩
  · intro env r hInv hreg
    rcases r with ⟨reg, nm, ⟨wqo⟩, ⟨cmo⟩, ⟨qpo⟩, ⟨mcgo⟩⟩
    subst hreg
    simp only [Mlx4.Inv, Mlx4.presOf, Mlx4.Pres.allAbsent, Bool.false_eq_true,
      if_false, Mlx4.Pres.mk.injEq] at hInv
    obtain ⟨h1, h2, h3, h4⟩ := hInv
    rw [Option.not_isSome, Option.isNone_iff_eq_none] at h1 h2 h3 h4
    subst h1 h2 h3 h4
    rcases env with ⟨w, q, c, m⟩
    cases w <;> cases q <;> cases c <;> cases m <;>
      simp [Mlx4.Registration.register, Mlx4.Mlx4WorkQueue.init, Mlx4.QpWorkQueue.init,
        Mlx4.CmWorkQueue.init, Mlx4.McgWorkQueue.init, Mlx4.Mlx4WorkQueue.clean,
        Mlx4.QpWorkQueue.clean, Mlx4.CmWorkQueue.clean, Mlx4.McgWorkQueue.clean]
  · intro cfg env r hInv hreg
    rcases r with ⟨reg, nm, ⟨s4, s6, nt⟩, lops⟩
    subst hreg
    simp only [Rxe.Inv, Rxe.presOf, Rxe.Pres.allAbsent, Bool.false_eq_true,
      if_false, Rxe.Pres.mk.injEq] at hInv
    obtain ⟨h1, h2, h3⟩ := hInv
    rw [Option.not_isSome, Option.isNone_iff_eq_none] at h1 h2 h3
    subst h1 h2 h3
    cases cfg <;>
      by_cases h4 : env.create4Err < 0 <;>
      by_cases h6 : env.create6Err < 0 <;>
      by_cases haf : env.create6Err = -97 <;>
      by_cases hn : env.notifErr = 0 <;>
      simp [Rxe.Registration.register, Rxe.RxeRecvSockets.alloc,
        Rxe.RxeRecvSockets.ipv4_init, Rxe.RxeRecvSockets.ipv6_init,
        Rxe.RxeRecvSockets.net_notifier_register, Rxe.RxeRecvSockets.rxe_net_release,
        h4, h6, haf, hn]
  · intro env r hreg
    rcases env with ⟨w, q, c, m⟩
    cases w <;> cases q <;> cases c <;> cases m <;>
      simp [Mlx4.Registration.register, hreg, Mlx4.Mlx4WorkQueue.init,
        Mlx4.QpWorkQueue.init, Mlx4.CmWorkQueue.init, Mlx4.McgWorkQueue.init]
  · intro cfg env r hreg
    cases cfg <;>
      by_cases h4 : env.create4Err < 0 <;>
      by_cases h6 : env.create6Err < 0 <;>
      by_cases haf : env.create6Err = -97 <;>
      by_cases hn : env.notifErr = 0 <;>
      simp [Rxe.Registration.register, Rxe.RxeRecvSockets.alloc,
        Rxe.RxeRecvSockets.ipv4_init, Rxe.RxeRecvSockets.ipv6_init,
        Rxe.RxeRecvSockets.net_notifier_register, Rxe.RxeRecvSockets.rxe_net_release,
        hreg, h4, h6, haf, hn]

/-- Witness for C4 at concrete inputs: a fresh mlx4 object is
unregistered; an all-success run flips the flag; a failing rxe run
restores the fresh state. -/
theorem C4_registered_flag_witness :
    (Mlx4.Registration.new "drv0").registered = false ∧
    ((Mlx4.Registration.register ⟨.ok 1, .ok 2, .ok 3, .ok 4⟩
        (Mlx4.Registration.new "drv0")).1 = .ok () ↔
      (Mlx4.Registration.register ⟨.ok 1, .ok 2, .ok 3, .ok 4⟩
        (Mlx4.Registration.new "drv0")).2.1.registered = true) ∧
    (Rxe.Registration.register (Rxe.Registration.new "rxe") true
        ⟨0, 11, 0, 12, -12⟩).2.1 = Rxe.Registration.new "rxe" :=
  ⟨C4_registered_flag_lifecycle.1 "drv0",
   (C4_registered_flag_lifecycle.2.2.1 ⟨.ok 1, .ok 2, .ok 3, .ok 4⟩
      (Mlx4.Registration.new "drv0")
      (mlx4_reachable_inv (Mlx4.Reachable.new "drv0")) (by decide)).1,
   (C4_registered_flag_lifecycle.2.2.2.1 true ⟨0, 11, 0, 12, -12⟩
      (Rxe.Registration.new "rxe")
      (rxe_reachable_inv (Rxe.Reachable.new "rxe")) (by decide)).2.2 (-12) (by decide)⟩

/-- C5: when `udp_sock_create6` reports `EAFNOSUPPORT` (`-97`), `alloc()`
treats the IPv6 socket as success-with-absence: the run fails only if the
notifier step fails, `sk6` stays absent and is never released — neither in
the rollback of a later-failing notifier step nor at teardown — and the
already-acquired mandatory IPv4 socket is kept (not rolled back) whenever
the rest of the run succeeds. -/
theorem C5_eafnosupport_success_with_absence :
    ∀ env : Rxe.Env, ¬env.create4Err < 0 → env.create6Err = -97 →
      ((Rxe.RxeRecvSockets.alloc Rxe.RxeRecvSockets.new true env).1 = .ok ()
          ↔ env.notifErr = 0) ∧
      (Rxe.RxeRecvSockets.alloc Rxe.RxeRecvSockets.new true env).2.1.sk6 = none ∧
      Rxe.Event.rel .sk6 ∉
        (Rxe.RxeRecvSockets.alloc Rxe.RxeRecvSockets.new true env).2.2 ∧
      (env.notifErr = 0 →
        (Rxe.RxeRecvSockets.alloc Rxe.RxeRecvSockets.new true env).2.1.sk4
            = some env.create4Sock ∧
        Rxe.Event.rel .sk4 ∉
          (Rxe.RxeRecvSockets.alloc Rxe.RxeRecvSockets.new true env).2.2) ∧
      Rxe.Event.rel .sk6 ∉
        Rxe.RxeRecvSockets.dropTrace
          (Rxe.RxeRecvSockets.alloc Rxe.RxeRecvSockets.new true env).2.1 := by
  intro env h4 haf
  have h97 : ((-97 : Int) < 0) := by norm_num
  by_cases hn : env.notifErr = 0 <;>
    simp [Rxe.RxeRecvSockets.alloc, Rxe.RxeRecvSockets.new, Rxe.RxeRecvSockets.ipv4_init,
      Rxe.RxeRecvSockets.ipv6_init, Rxe.RxeRecvSockets.net_notifier_register,
      Rxe.RxeRecvSockets.rxe_net_release, Rxe.RxeRecvSockets.dropTrace,
      h4, haf, hn, h97]

/-- Witness for C5 with `EAFNOSUPPORT` on IPv6 and every other step
succeeding. -/
theorem C5_eafnosupport_witness :
    ((Rxe.RxeRecvSockets.alloc Rxe.RxeRecvSockets.new true ⟨0, 11, -97, 12, 0⟩).1 = .ok ()
        ↔ (0 : Int) = 0) ∧
    (Rxe.RxeRecvSockets.alloc Rxe.RxeRecvSockets.new true ⟨0, 11, -97, 12, 0⟩).2.1.sk6
        = none :=
  ⟨(C5_eafnosupport_success_with_absence ⟨0, 11, -97, 12, 0⟩ (by norm_num) rfl).1,
   (C5_eafnosupport_success_with_absence ⟨0, 11, -97, 12, 0⟩ (by norm_num) rfl).2.1⟩

/-- C6: in every `register()` run from a reachable state, the host-facing
publish call (`mlx4_register_interface` / `rdma_link_register`) appears in
the trace only when the run succeeds, and then as the very last call,
after every acquisition step; whenever any acquisition step fails, no
publish call appears at all. -/
theorem C6_publish_after_acquisition :
    (∀ (env : Mlx4.Env) (r : Mlx4.Registration), Mlx4.Reachable r →
      (∀ e : Errno, (Mlx4.Registration.register env r).1 = .error e →
        Mlx4.Event.publish ∉ (Mlx4.Registration.register env r).2.2) ∧
      (Mlx4.Event.publish ∈ (Mlx4.Registration.register env r).2.2 →
        (Mlx4.Registration.register env r).1 = .ok () ∧
        (Mlx4.Registration.register env r).2.2.getLast? = some .publish)) ∧
    (∀ (cfg : Bool) (env : Rxe.Env) (r : Rxe.Registration), Rxe.Reachable r →
      (∀ e : Errno, (Rxe.Registration.register r cfg env).1 = .error e →
        Rxe.Event.linkRegister ∉ (Rxe.Registration.register r cfg env).2.2) ∧
      (Rxe.Event.linkRegister ∈ (Rxe.Registration.register r cfg env).2.2 →
        (Rxe.Registration.register r cfg env).1 = .ok () ∧
        (Rxe.Registration.register r cfg env).2.2.getLast? = some .linkRegister)) := by
  constructor
  · intro env r hr
    have hInv := mlx4_reachable_inv hr
    rcases r with ⟨reg, nm, ⟨wqo⟩, ⟨cmo⟩, ⟨qpo⟩, ⟨mcgo⟩⟩
    cases reg with
    | true => constructor <;> simp [Mlx4.Registration.register]
    | false =>
        simp only [Mlx4.Inv, Mlx4.presOf, Mlx4.Pres.allAbsent, Bool.false_eq_true,
          if_false, Mlx4.Pres.mk.injEq] at hInv
        obtain ⟨h1, h2, h3, h4⟩ := hInv
        rw [Option.not_isSome, Option.isNone_iff_eq_none] at h1 h2 h3 h4
        subst h1 h2 h3 h4
        rcases env with ⟨w, q, c, m⟩
        cases w <;> cases q <;> cases c <;> cases m <;>
          simp [Mlx4.Registration.register, Mlx4.Mlx4WorkQueue.init,
            Mlx4.QpWorkQueue.init, Mlx4.CmWorkQueue.init, Mlx4.McgWorkQueue.init,
            Mlx4.Mlx4WorkQueue.clean, Mlx4.QpWorkQueue.clean, Mlx4.CmWorkQueue.clean,
            Mlx4.McgWorkQueue.clean]
  · intro cfg env r hr
    have hInv := rxe_reachable_inv hr
    rcases r with ⟨reg, nm, ⟨s4, s6, nt⟩, lops⟩
    cases reg with
    | true => constructor <;> simp [Rxe.Registration.register]
    | false =>
        simp only [Rxe.Inv, Rxe.presOf, Rxe.Pres.allAbsent, Bool.false_eq_true,
          if_false, Rxe.Pres.mk.injEq] at hInv
        obtain ⟨h1, h2, h3⟩ := hInv
        rw [Option.not_isSome, Option.isNone_iff_eq_none] at h1 h2 h3
        subst h1 h2 h3
        cases cfg <;>
          by_cases h4 : env.create4Err < 0 <;>
          by_cases h6 : env.create6Err < 0 <;>
          by_cases haf : env.create6Err = -97 <;>
          by_cases hn : env.notifErr = 0 <;>
          simp [Rxe.Registration.register, Rxe.RxeRecvSockets.alloc,
            Rxe.RxeRecvSockets.ipv4_init, Rxe.RxeRecvSockets.ipv6_init,
            Rxe.RxeRecvSockets.net_notifier_register, Rxe.RxeRecvSockets.rxe_net_release,
            h4, h6, haf, hn]

/-- Witness for C6: a failing mlx4 run publishes nothing; a successful rxe
run publishes last. -/
theorem C6_publish_after_acquisition_witness :
    Mlx4.Event.publish ∉
      (Mlx4.Registration.register ⟨.ok 1, .ok 2, .error (-16), .ok 4⟩
        (Mlx4.Registration.new "drv0")).2.2 ∧
    (Rxe.Registration.register (Rxe.Registration.new "rxe") true ⟨0, 11, 0, 12, 0⟩).2.2.getLast?
      = some .linkRegister :=
  ⟨(C6_publish_after_acquisition.1 ⟨.ok 1, .ok 2, .error (-16), .ok 4⟩
      (Mlx4.Registration.new "drv0") (Mlx4.Reachable.new "drv0")).1 (-16) (by decide),
   ((C6_publish_after_acquisition.2 true ⟨0, 11, 0, 12, 0⟩
      (Rxe.Registration.new "rxe") (Rxe.Reachable.new "rxe")).2 (by decide)).2⟩

/-- C7: every generated raw entry point performs exactly one invocation of
the corresponding capability method — its effect on the driver state is
exactly that of a single method call — and then returns the fixed
host-convention value (`null` for the mlx4 `add` slot, unit for the mlx4
`remove`/`event` slots, status `0` for the three rxe callbacks),
discarding the method's `Result`, success or failure alike. -/
theorem C7_adapter_invokes_once_fixed_return :
    (∀ (σ : Type) (T : Mlx4.Mlx4Operation σ) (s : σ),
      Mlx4.add_callback T s = ((T.add s).1, Mlx4.RawPtr.null) ∧
      Mlx4.remove_callback T s = (T.remove s).1 ∧
      Mlx4.event_callback T s = (T.event s).1) ∧
    (∀ (σ : Type) (T : Rxe.RxeOperation σ) (s : σ),
      Rxe.rxe_notify T s = ((T.notify s).1, 0) ∧
      Rxe.rxe_newlink T s = ((T.newlink s).1, 0) ∧
      Rxe.rxe_udp_encap_recv T s = ((T.udp_recv s).1, 0)) :=
  ⟨fun _ _ _ => ⟨rfl, rfl, rfl⟩, fun _ _ _ => ⟨rfl, rfl, rfl⟩⟩

/-- C8: releasing an absent sub-resource is a no-op; and along every
lifecycle (any number of `register()` calls from fresh, then drop) the
trace is ledger-consistent — an acquisition call happens only for an
absent sub-resource, a release call only for a present one (hence no
double release and no re-acquisition of a present sub-resource) — and the
presence map evolves exactly with the successful acquisitions and
releases, ending all-absent after drop. -/
theorem C8_present_iff_acquired_not_released :
    (∀ s : Mlx4.Mlx4WorkQueue, s.wq = none → s.clean = (s, [])) ∧
    (∀ s : Mlx4.CmWorkQueue, s.cm_wq = none → s.clean = (s, [])) ∧
    (∀ s : Mlx4.McgWorkQueue, s.clean_wq = none → s.clean = (s, [])) ∧
    (∀ s : Mlx4.QpWorkQueue, s.mlx4_ib_qp_event_wq = none → s.clean = (s, [])) ∧
    (∀ s : Rxe.RxeRecvSockets, s.sk4 = none → s.sk6 = none →
      s.rxe_net_release = (s, [])) ∧
    (∀ s : Rxe.RxeRecvSockets, s.rxe_net_notifier = none →
      Rxe.RxeRecvSockets.dropTrace s = (s.rxe_net_release).2) ∧
    (∀ (env : Mlx4.Env) (r : Mlx4.Registration), Mlx4.Reachable r →
      Mlx4.check (Mlx4.presOf r) (Mlx4.Registration.register env r).2.2 = true ∧
      Mlx4.run (Mlx4.presOf r) (Mlx4.Registration.register env r).2.2
        = Mlx4.presOf (Mlx4.Registration.register env r).2.1 ∧
      Mlx4.check (Mlx4.presOf r) (Mlx4.Registration.dropTrace r) = true ∧
      Mlx4.run (Mlx4.presOf r) (Mlx4.Registration.dropTrace r) = Mlx4.Pres.allAbsent) ∧
    (∀ (cfg : Bool) (env : Rxe.Env) (r : Rxe.Registration), Rxe.Reachable r →
      Rxe.check (Rxe.presOf r.net_socket) (Rxe.Registration.register r cfg env).2.2
        = true ∧
      Rxe.run (Rxe.presOf r.net_socket) (Rxe.Registration.register r cfg env).2.2
        = Rxe.presOf (Rxe.Registration.register r cfg env).2.1.net_socket ∧
      Rxe.check (Rxe.presOf r.net_socket) (Rxe.Registration.dropTrace r) = true ∧
      Rxe.run (Rxe.presOf r.net_socket) (Rxe.Registration.dropTrace r)
        = Rxe.Pres.allAbsent) := by
  refine ⟨?_, ?_, ?_, ?_, ?_, ?_, ?_, ?_⟩
  · intro s h; simp [Mlx4.Mlx4WorkQueue.clean, h]
  · intro s h; simp [Mlx4.CmWorkQueue.clean, h]
  · intro s h; simp [Mlx4.McgWorkQueue.clean, h]
  · intro s h; simp [Mlx4.QpWorkQueue.clean, h]
  · rintro ⟨a, b, c⟩ h4 h6
    subst h4 h6
    simp [Rxe.RxeRecvSockets.rxe_net_release]
  · rintro ⟨a, b, c⟩ h
    subst h
    cases a <;> cases b <;>
      simp [Rxe.RxeRecvSockets.dropTrace, Rxe.RxeRecvSockets.rxe_net_release]
  · intro env r hr
    have hInv := mlx4_reachable_inv hr
    rcases r with ⟨reg, nm, ⟨wqo⟩, ⟨cmo⟩, ⟨qpo⟩, ⟨mcgo⟩⟩
    cases reg <;>
      cases wqo <;> cases cmo <;> cases qpo <;> cases mcgo <;>
      simp_all [Mlx4.Inv, Mlx4.presOf, Mlx4.Pres.allAbsent, Mlx4.Pres.allPresent,
        Mlx4.Registration.register, Mlx4.Registration.dropTrace,
        Mlx4.Mlx4WorkQueue.init, Mlx4.QpWorkQueue.init, Mlx4.CmWorkQueue.init,
        Mlx4.McgWorkQueue.init, Mlx4.Mlx4WorkQueue.clean, Mlx4.QpWorkQueue.clean,
        Mlx4.CmWorkQueue.clean, Mlx4.McgWorkQueue.clean, Mlx4.check, Mlx4.run,
        Mlx4.Pres.get, Mlx4.Pres.set] <;>
      (rcases env with ⟨w, q, c, m⟩
       cases w <;> cases q <;> cases c <;> cases m <;>
        simp [Mlx4.Registration.register, Mlx4.Mlx4WorkQueue.init,
          Mlx4.QpWorkQueue.init, Mlx4.CmWorkQueue.init, Mlx4.McgWorkQueue.init,
          Mlx4.Mlx4WorkQueue.clean, Mlx4.QpWorkQueue.clean, Mlx4.CmWorkQueue.clean,
          Mlx4.McgWorkQueue.clean, Mlx4.check, Mlx4.run, Mlx4.Pres.get, Mlx4.Pres.set,
          Mlx4.presOf, Mlx4.Pres.allAbsent, Mlx4.Pres.allPresent])
  · intro cfg env r hr
    have hInv := rxe_reachable_inv hr
    rcases r with ⟨reg, nm, ⟨s4, s6, nt⟩, lops⟩
    cases reg <;>
      cases s4 <;> cases s6 <;> cases nt <;>
      simp_all [Rxe.Inv, Rxe.presOf, Rxe.Pres.allAbsent,
        Rxe.Registration.register, Rxe.Registration.dropTrace,
        Rxe.RxeRecvSockets.dropTrace, Rxe.RxeRecvSockets.rxe_net_release,
        Rxe.check, Rxe.run, Rxe.Pres.get, Rxe.Pres.set] <;>
      (by_cases h4 : env.create4Err < 0 <;>
       by_cases h6 : env.create6Err < 0 <;>
       by_cases haf : env.create6Err = -97 <;>
       by_cases hn : env.notifErr = 0 <;>
       cases cfg <;>
        simp [Rxe.Registration.register, Rxe.RxeRecvSockets.alloc,
          Rxe.RxeRecvSockets.ipv4_init, Rxe.RxeRecvSockets.ipv6_init,
          Rxe.RxeRecvSockets.net_notifier_register, Rxe.RxeRecvSockets.rxe_net_release,
          Rxe.check, Rxe.run, Rxe.Pres.get, Rxe.Pres.set, Rxe.presOf,
          Rxe.Pres.allAbsent, h4, h6, haf, hn])

/-- Witness for C8: ledger consistency of a concrete failing mlx4 run and
the all-absent map after a concrete rxe drop. -/
theorem C8_present_iff_witness :
    Mlx4.check (Mlx4.presOf (Mlx4.Registration.new "drv0"))
      (Mlx4.Registration.register ⟨.ok 1, .ok 2, .ok 3, .error (-16)⟩
        (Mlx4.Registration.new "drv0")).2.2 = true ∧
    Rxe.run
      (Rxe.presOf
        (Rxe.Registration.register (Rxe.Registration.new "rxe") true
          ⟨0, 11, 0, 12, 0⟩).2.1.net_socket)
      (Rxe.Registration.dropTrace
        (Rxe.Registration.register (Rxe.Registration.new "rxe") true
          ⟨0, 11, 0, 12, 0⟩).2.1)
      = Rxe.Pres.allAbsent :=
  ⟨(C8_present_iff_acquired_not_released.2.2.2.2.2.2.1
      ⟨.ok 1, .ok 2, .ok 3, .error (-16)⟩ (Mlx4.Registration.new "drv0")
      (Mlx4.Reachable.new "drv0")).1,
   (C8_present_iff_acquired_not_released.2.2.2.2.2.2.2 true ⟨0, 13, 0, 14, 0⟩
      (Rxe.Registration.register (Rxe.Registration.new "rxe") true
        ⟨0, 11, 0, 12, 0⟩).2.1
      (Rxe.Reachable.step true ⟨0, 11, 0, 12, 0⟩ (Rxe.Reachable.new "rxe"))).2.2.2⟩

/-- C9: dropping a reachable `Registered` rxe registration makes the two
host-facing teardown calls first — `rdma_link_unregister` then
`ib_unregister_driver` — each exactly once, and everything after them in
the trace is a sub-resource release (socket/notifier); the IPv4 socket and
notifier releases do occur, after both host calls. -/
theorem C9_rxe_drop_two_host_calls :
    ∀ r : Rxe.Registration, Rxe.Reachable r → r.registered = true →
      (Rxe.Registration.dropTrace r).take 2 = [.linkUnregister, .ibUnregisterDriver] ∧
      (∀ e ∈ (Rxe.Registration.dropTrace r).drop 2, ∃ q, e = Rxe.Event.rel q) ∧
      Rxe.Event.rel .sk4 ∈ Rxe.Registration.dropTrace r ∧
      Rxe.Event.rel .notif ∈ Rxe.Registration.dropTrace r ∧
      (Rxe.Registration.dropTrace r).count .linkUnregister = 1 ∧
      (Rxe.Registration.dropTrace r).count .ibUnregisterDriver = 1 := by
  intro r hr hreg
  have hInv := rxe_reachable_inv hr
  rcases r with ⟨reg, nm, ⟨s4, s6, nt⟩, lops⟩
  subst hreg
  simp only [Rxe.Inv, if_true, Rxe.presOf] at hInv
  obtain ⟨h1, h2⟩ := hInv
  cases s4 with
  | none => simp at h1
  | some a =>
    cases nt with
    | none => simp at h2
    | some c =>
      cases s6 <;>
        simp [Rxe.Registration.dropTrace, Rxe.RxeRecvSockets.dropTrace,
          Rxe.RxeRecvSockets.rxe_net_release, List.count_cons]

/-- Witness for C9 at a concrete registered rxe state. -/
theorem C9_rxe_drop_witness :
    (Rxe.Registration.dropTrace
      (Rxe.Registration.register (Rxe.Registration.new "rxe") true
        ⟨0, 11, 0, 12, 0⟩).2.1).take 2
      = [.linkUnregister, .ibUnregisterDriver] :=
  (C9_rxe_drop_two_host_calls
    (Rxe.Registration.register (Rxe.Registration.new "rxe") true ⟨0, 11, 0, 12, 0⟩).2.1
    (Rxe.Reachable.step true ⟨0, 11, 0, 12, 0⟩ (Rxe.Reachable.new "rxe"))
    (by decide)).1

/-- C10: when `register_netdevice_notifier` fails, the just-installed
notifier block is unregistered and taken back out inside
`net_notifier_register` itself — the returned state has it absent and the
step's trace shows install followed by unregister — before the error
propagates; consequently, after any failed `alloc()` from a fresh socket
set, all three sub-resources are absent. -/
theorem C10_notifier_self_cleanup :
    (∀ (env : Rxe.Env) (s : Rxe.RxeRecvSockets), env.notifErr ≠ 0 →
      Rxe.RxeRecvSockets.net_notifier_register s env
        = (.error (from_kernel_errno env.notifErr),
           { s with rxe_net_notifier := none },
           [.tryAcq .notif true, .rel .notif])) ∧
    (∀ (cfg : Bool) (env : Rxe.Env) (e : Errno),
      (Rxe.RxeRecvSockets.alloc Rxe.RxeRecvSockets.new cfg env).1 = .error e →
      (Rxe.RxeRecvSockets.alloc Rxe.RxeRecvSockets.new cfg env).2.1
        = Rxe.RxeRecvSockets.new) := by
  constructor
  · intro env s h
    simp [Rxe.RxeRecvSockets.net_notifier_register, h]
  · intro cfg env e
    cases cfg <;>
      by_cases h4 : env.create4Err < 0 <;>
      by_cases h6 : env.create6Err < 0 <;>
      by_cases haf : env.create6Err = -97 <;>
      by_cases hn : env.notifErr = 0 <;>
      simp [Rxe.RxeRecvSockets.alloc, Rxe.RxeRecvSockets.new,
        Rxe.RxeRecvSockets.ipv4_init, Rxe.RxeRecvSockets.ipv6_init,
        Rxe.RxeRecvSockets.net_notifier_register, Rxe.RxeRecvSockets.rxe_net_release,
        h4, h6, haf, hn]

/-- Witness for C10: a concrete notifier failure leaves the fresh socket
set fully absent and shows the in-step unregister. -/
theorem C10_notifier_self_cleanup_witness :
    Rxe.RxeRecvSockets.net_notifier_register ⟨some 11, none, none⟩ ⟨0, 11, -97, 12, -12⟩
      = (.error (-12), ⟨some 11, none, none⟩, [.tryAcq .notif true, .rel .notif]) ∧
    (Rxe.RxeRecvSockets.alloc Rxe.RxeRecvSockets.new true ⟨0, 11, -97, 12, -12⟩).2.1
      = Rxe.RxeRecvSockets.new :=
  ⟨C10_notifier_self_cleanup.1 ⟨0, 11, -97, 12, -12⟩ ⟨some 11, none, none⟩ (by decide),
   C10_notifier_self_cleanup.2 true ⟨0, 11, -97, 12, -12⟩ (-12) (by decide)⟩
